import Mathlib

/-
Verification of the message-extraction core of tinki-babel-plugin-react-intl
(src/index.js) against its natural-language specification.

The embedding models the plugin's pure decision logic.  External collaborators
(the Babel traversal, path evaluation, the ICU message-syntax validator
`printICUMessage` from ./print-icu-message, and the filesystem) are modelled
abstractly, exactly at the interface the source uses:

  * static evaluation results appear as `Option String` fields on the node
    models (`none` stands for the INVALID_VALUE sentinel returned when
    `path.evaluate()` is not confident);
  * `printICUMessage` is a parameter `norm : String → Except String String`
    (it either returns the normalized message or throws a parse error);
  * `path.referencesImport(mod, name)` is modelled by giving each identifier
    node its import origin, an optional (module, importedName) pair;
  * a thrown `buildCodeFrameError` becomes an `Except.error`; since the state
    is threaded functionally, a thrown error leaves the registry untouched by
    construction, mirroring that the JS throw aborts before any mutation.

JS truthiness on the string-valued descriptor fields (`id`, `description`,
`defaultMessage`) and on the string option `messagesDir` is modelled by
`truthy : Option String → Bool`: a missing property (undefined) and the empty
string are both falsy; every other string is truthy.
-/

set_option autoImplicit false

namespace ReactIntlExtract

/-- JS truthiness for an optional string value: `undefined` (here `none`) and
the empty string are falsy, all other strings truthy. -/
def truthy : Option String → Bool
  | none => false
  | some s => s ≠ ""

/-- Default component (markup marker) names, the COMPONENT_NAMES constant of
src/index.js. -/
def COMPONENT_NAMES : List String :=
  ["FormattedMessage", "FormattedHTMLMessage", "Msg", "HtmlMsg"]

/-- Default function (call marker) names, the FUNCTION_NAMES constant of
src/index.js. -/
def FUNCTION_NAMES : List String :=
  ["defineMessages", "msgs"]

/-- Recognized descriptor property names, the DESCRIPTOR_PROPS set of
src/index.js. -/
def DESCRIPTOR_PROPS : List String :=
  ["id", "description", "defaultMessage"]

/-- Plugin options (`state.opts`).  `none` on a list option means the option
was not supplied, so the `opts.x || default` fallback in the source applies;
a supplied list (even the empty one) is truthy in JS and is used as given. -/
structure Opts where
  moduleSourceNames : Option (List String) := none
  componentNames : Option (List String) := none
  functionNames : Option (List String) := none
  enforceDescriptions : Bool := false
  messagesDir : Option String := none
deriving Repr, DecidableEq

/-- getModuleSourceNames of src/index.js: the configured module sources or
the single default package name. -/
def getModuleSourceNames (opts : Opts) : List String :=
  opts.moduleSourceNames.getD ["react-intl"]

/-- getComponentNames of src/index.js: the configured component names or the
built-in default list.  (Defined in the source, but never called by the
visitors; see the marker-matcher theorems.) -/
def getComponentNames (opts : Opts) : List String :=
  opts.componentNames.getD COMPONENT_NAMES

/-- getFunctionNames of src/index.js: the configured function names or the
built-in default list.  (Defined in the source, but never called by the
visitors; see the marker-matcher theorems.) -/
def getFunctionNames (opts : Opts) : List String :=
  opts.functionNames.getD FUNCTION_NAMES

/-- A (partial) message descriptor, the hash built by createMessageDescriptor
and consumed by storeMessage.  A `none` field is a property that was never
set (absent / undefined in JS). -/
structure MessageDescriptor where
  id : Option String := none
  description : Option String := none
  defaultMessage : Option String := none
deriving Repr, DecidableEq

/-- The errors the engine throws via buildCodeFrameError.  The code frame /
source-location decoration added by Babel is not part of the decision logic;
each constructor records which error message is raised and the data
interpolated into it. -/
inductive ExtractionError where
  /-- "Message Descriptors require an id and defaultMessage." -/
  | missingRequired
  /-- "Duplicate message id ..., but the description and/or defaultMessage
  are different." (carries the conflicting id interpolated into the text) -/
  | duplicateId (id : String)
  /-- "Message must have a description." -/
  | descriptionRequired
  /-- "Message failed to parse. It looks like backslashes were used for
  escaping ... Wrap with an expression container." -/
  | jsxEscapeParseFailure
  /-- "Message failed to parse. See the message-syntax guide." (carries the
  underlying parse error passed to buildCodeFrameError) -/
  | parseFailure (reason : String)
  /-- "must be called with an object expression ..." (marker-function shape
  error) -/
  | callShape
deriving Repr, DecidableEq

/-- The per-unit registry `state.reactIntl.messages`, a JS Map from id to
descriptor, modelled as an insertion-ordered association list with unique
keys (Map semantics). -/
abbrev Registry : Type := List (String × MessageDescriptor)

/-- Map.get: the value stored under a key, if any. -/
def regLookup : Registry → String → Option MessageDescriptor
  | [], _ => none
  | (k, v) :: rest, i => if k = i then some v else regLookup rest i

/-- Map.set: update an existing key in place (keeping its position, as JS Map
does) or append a new entry at the end. -/
def regSet : Registry → String → MessageDescriptor → Registry
  | [], i, d => [(i, d)]
  | (k, v) :: rest, i, d =>
    if k = i then (i, d) :: rest else (k, v) :: regSet rest i d

/-- Map.has. -/
def regHas (st : Registry) (i : String) : Bool :=
  (regLookup st i).isSome

/-- Number of entries stored under a key (1 for a well-formed Map when the
key is present, 0 otherwise). -/
def keyCount (st : Registry) (i : String) : Nat :=
  (st.filter (fun e => e.1 = i)).length

/-- storeMessage of src/index.js.  The source performs, in order: the
required-field truthiness check, then (when the id is already present) the
conflict check, then the enforceDescriptions check, then `messages.set`.
The enforceDescriptions check appears in both branches of the match here
because the source reaches it whether or not the id was already present. -/
def storeMessage (d : MessageDescriptor) (opts : Opts) (st : Registry) :
    Except ExtractionError Registry :=
  if ¬ (truthy d.id ∧ truthy d.defaultMessage) then
    .error .missingRequired
  else
    match regLookup st (d.id.getD "") with
    | some existing =>
      if d.description ≠ existing.description ∨
          d.defaultMessage ≠ existing.defaultMessage then
        .error (.duplicateId (d.id.getD ""))
      else if opts.enforceDescriptions ∧ ¬ truthy d.description then
        .error .descriptionRequired
      else
        .ok (regSet st (d.id.getD "") d)
    | none =>
      if opts.enforceDescriptions ∧ ¬ truthy d.description then
        .error .descriptionRequired
      else
        .ok (regSet st (d.id.getD "") d)

/-- A key node of a RawPropertyPair (a JSX attribute name or an object
property key).  `ident n` is an Identifier / JSXIdentifier with name `n`;
`expr r` is any other expression, with `r` the result of `path.evaluate()`
(`none` when the evaluation is not confident). -/
inductive KeyNode where
  | ident (name : String)
  | expr (evaluated : Option String)
deriving Repr, DecidableEq

/-- A value node of a RawPropertyPair.  `evaluated` is the result of
`path.evaluate()` after the one-level JSXExpressionContainer unwrap
(`none` when not confident, i.e. the INVALID_VALUE case); `isLit` records
`valuePath.isLiteral()` on the original, unwrapped node (false for an
expression-container value). -/
structure ValueNode where
  evaluated : Option String
  isLit : Bool
deriving Repr, DecidableEq

/-- getMessageDescriptorKey of src/index.js: an identifier yields its name
directly; anything else is statically evaluated, `none` standing for the
INVALID_VALUE sentinel (after the skip warning). -/
def getMessageDescriptorKey : KeyNode → Option String
  | .ident n => some n
  | .expr r => r

/-- getMessageDescriptorValue of src/index.js: unwrap an expression
container, then statically evaluate; `none` is INVALID_VALUE. -/
def getMessageDescriptorValue (v : ValueNode) : Option String :=
  v.evaluated

/-- Whether a character list contains two consecutive backslashes, the
`value.indexOf` check of the double-backslash escape sequence in
createMessageDescriptor. -/
def hasDoubleBackslashAux : List Char → Bool
  | '\\' :: '\\' :: _ => true
  | _ :: rest => hasDoubleBackslashAux rest
  | [] => false

/-- Whether a string contains two consecutive backslashes. -/
def hasDoubleBackslash (s : String) : Bool :=
  hasDoubleBackslashAux s.data

/-- Store a value under a recognized descriptor property name (the dynamic
`hash[key] = value` assignment of the source, restricted to
DESCRIPTOR_PROPS). -/
def setProp (h : MessageDescriptor) (k : String) (v : Option String) :
    MessageDescriptor :=
  if k = "id" then { h with id := v }
  else if k = "description" then { h with description := v }
  else if k = "defaultMessage" then { h with defaultMessage := v }
  else h

/-- One step of the reduce in createMessageDescriptor of src/index.js:
resolve the key, ignore unrecognized or non-confident properties, validate
a defaultMessage value through the message-syntax validator `norm`, store
other recognized values verbatim. -/
def descriptorStep (norm : String → Except String String) (isJSXSource : Bool)
    (hash : MessageDescriptor) (p : KeyNode × ValueNode) :
    Except ExtractionError MessageDescriptor :=
  match getMessageDescriptorKey p.1 with
  | none => .ok hash
  | some key =>
    if key ∈ DESCRIPTOR_PROPS then
      match getMessageDescriptorValue p.2 with
      | none => .ok hash
      | some value =>
        if key = "defaultMessage" then
          match norm value with
          | .ok printed => .ok (setProp hash key (some printed))
          | .error parseError =>
            if isJSXSource ∧ p.2.isLit ∧ hasDoubleBackslash value then
              .error .jsxEscapeParseFailure
            else
              .error (.parseFailure parseError)
        else
          .ok (setProp hash key (some value))
    else
      .ok hash

/-- createMessageDescriptor of src/index.js: reduce the raw property pairs
into a partial descriptor, starting from the empty hash.  `norm` is the
external printICUMessage collaborator. -/
def createMessageDescriptor (norm : String → Except String String)
    (propPaths : List (KeyNode × ValueNode)) (isJSXSource : Bool) :
    Except ExtractionError MessageDescriptor :=
  propPaths.foldlM (descriptorStep norm isJSXSource) {}

/-- An identifier reference as the marker matcher sees it: either an
Identifier/JSXIdentifier carrying its import origin (the module and imported
name its binding resolves to, if it is an import binding), or any other
node. -/
inductive RefPath where
  | ident (origin : Option (String × String))
  | nonIdent
deriving Repr, DecidableEq

/-- referencesImport of src/index.js: a non-identifier never matches; an
identifier matches when, for some configured name and some configured
module source, `path.referencesImport(mod, name)` holds, i.e. its binding
is the imported `name` from `mod`. -/
def referencesImport (path : RefPath) (mods importedNames : List String) :
    Bool :=
  match path with
  | .nonIdent => false
  | .ident origin =>
    importedNames.any fun name => mods.any fun mod => origin = some (mod, name)

/-- Modelled from the spec: `isMarkupMarker(node, moduleSources,
componentNames)` of section 4.1 — recognition of a markup element against
the CONFIGURED component names (i.e. what the visitor would test if it
called the source's getComponentNames helper). -/
def isMarkupMarker (opts : Opts) (name : RefPath) : Bool :=
  referencesImport name (getModuleSourceNames opts) (getComponentNames opts)

/-- Modelled from the spec: `isFunctionMarker(node, moduleSources,
functionNames)` of section 4.1 — recognition of a call expression against
the CONFIGURED function names (i.e. what the visitor would test if it
called the source's getFunctionNames helper). -/
def isFunctionMarker (opts : Opts) (callee : RefPath) : Bool :=
  referencesImport callee (getModuleSourceNames opts) (getFunctionNames opts)

/-- The recognition test the JSXOpeningElement visitor actually performs at
line 248 of src/index.js: against the constant COMPONENT_NAMES, not the
configured names. -/
def jsxMarkerTest (opts : Opts) (name : RefPath) : Bool :=
  referencesImport name (getModuleSourceNames opts) COMPONENT_NAMES

/-- The recognition test the CallExpression visitor actually performs at
line 311 of src/index.js: against the constant FUNCTION_NAMES, not the
configured names. -/
def callMarkerTest (opts : Opts) (callee : RefPath) : Bool :=
  referencesImport callee (getModuleSourceNames opts) FUNCTION_NAMES

/-- The JSXOpeningElement visitor of src/index.js, from the point where the
element's name path is classified.  `attrs` are the (name, value) pairs of
the element's JSXAttributes (the source filters out spread attributes, which
contribute no pair).  A FormattedPlural reference only logs a warning and is
skipped; a recognized marker builds a descriptor and stores it only when the
resolved defaultMessage is truthy. -/
def jsxOpeningElement (norm : String → Except String String) (opts : Opts)
    (name : RefPath) (attrs : List (KeyNode × ValueNode)) (st : Registry) :
    Except ExtractionError Registry :=
  if referencesImport name (getModuleSourceNames opts) ["FormattedPlural"] then
    .ok st
  else if referencesImport name (getModuleSourceNames opts) COMPONENT_NAMES then
    match createMessageDescriptor norm attrs true with
    | .error e => .error e
    | .ok descriptor =>
      if truthy descriptor.defaultMessage then
        storeMessage descriptor opts st
      else
        .ok st
  else
    .ok st

/-- Sequential registration of a list of descriptors, as successive marker
usages commit to the per-unit registry during the traversal; a thrown error
aborts the unit (the remaining stores never run). -/
def runStore (opts : Opts) : List MessageDescriptor → Registry →
    Except ExtractionError Registry
  | [], st => .ok st
  | d :: ds, st => (storeMessage d opts st).bind (runStore opts ds)

/-- The descriptor sequence read out of the registry at Program.exit,
`[...reactIntl.messages.values()]`: the stored descriptors in Map insertion
order. -/
def emitted (st : Registry) : List MessageDescriptor :=
  st.map Prod.snd

/-- What Program.exit produces: the metadata attachment (always) and the
decision whether a catalog file is written.  Path computation and the write
itself are the filesystem collaborator's job; the decision is
`opts.messagesDir && descriptors.length > 0`. -/
structure ExitResult where
  metadata : List MessageDescriptor
  writesFile : Bool
deriving Repr, DecidableEq

/-- The Program.exit handler of src/index.js, restricted to its decision
logic: attach the emitted descriptors to `file.metadata` unconditionally, and
write the catalog file iff an output directory is configured (truthy) and the
descriptor sequence is non-empty. -/
def programExit (opts : Opts) (st : Registry) : ExitResult :=
  let descriptors := emitted st
  { metadata := descriptors
    writesFile := truthy opts.messagesDir && decide (descriptors.length > 0) }

/-- Insert a key at the end of a key list unless it is already present; the
effect of a Map.set on the key sequence. -/
def insertIfAbsent (ks : List String) (i : String) : List String :=
  if i ∈ ks then ks else ks ++ [i]

/-- The order in which distinct ids are first registered: left fold of
`insertIfAbsent` over the id sequence. -/
def firstRegOrder (ids : List String) : List String :=
  ids.foldl insertIfAbsent []

/-- Well-formedness of the registry as storeMessage maintains it: every
entry's stored descriptor carries its own key as id. -/
@[reducible] def WFreg (st : Registry) : Prop :=
  ∀ e ∈ st, e.2.id = some e.1

lemma regLookup_regSet_self (st : Registry) (i : String)
    (d : MessageDescriptor) : regLookup (regSet st i d) i = some d := by
  induction st with
  | nil => simp [regSet, regLookup]
  | cons e rest ih =>
    obtain ⟨k, v⟩ := e
    by_cases hk : k = i <;> simp [regSet, regLookup, hk, ih]

lemma regSet_regSet_self (st : Registry) (i : String)
    (d : MessageDescriptor) : regSet (regSet st i d) i d = regSet st i d := by
  induction st with
  | nil => simp [regSet]
  | cons e rest ih =>
    obtain ⟨k, v⟩ := e
    by_cases hk : k = i <;> simp [regSet, hk, ih]

lemma keys_regSet (st : Registry) (i : String) (d : MessageDescriptor) :
    (regSet st i d).map Prod.fst = insertIfAbsent (st.map Prod.fst) i := by
  induction st with
  | nil => simp [regSet, insertIfAbsent]
  | cons e rest ih =>
    obtain ⟨k, v⟩ := e
    by_cases hk : k = i
    · simp [regSet, insertIfAbsent, hk]
    · have hne : ¬ i = k := fun h => hk h.symm
      simp only [regSet, if_neg hk, List.map_cons, ih, insertIfAbsent,
        List.mem_cons, hne, false_or]
      by_cases hm : i ∈ rest.map Prod.fst <;> simp [hm]

lemma keyCount_eq_zero (st : Registry) (i : String)
    (h : i ∉ st.map Prod.fst) : keyCount st i = 0 := by
  induction st with
  | nil => rfl
  | cons e rest ih =>
    simp only [List.map_cons, List.mem_cons] at h
    push_neg at h
    have h1 : ¬ e.1 = i := fun hh => h.1 hh.symm
    have := ih h.2
    simpa [keyCount, List.filter_cons, h1] using this

lemma keyCount_regSet (st : Registry) (i : String) (d : MessageDescriptor)
    (h : (st.map Prod.fst).Nodup) : keyCount (regSet st i d) i = 1 := by
  induction st with
  | nil => simp [regSet, keyCount]
  | cons e rest ih =>
    obtain ⟨k, v⟩ := e
    simp only [List.map_cons, List.nodup_cons] at h
    by_cases hk : k = i
    · subst hk
      have h0 : keyCount rest k = 0 := keyCount_eq_zero rest k h.1
      simpa [regSet, keyCount, List.filter_cons] using h0
    · have := ih h.2
      simpa [regSet, keyCount, List.filter_cons, hk] using this

lemma nodup_keys_regSet (st : Registry) (i : String) (d : MessageDescriptor)
    (h : (st.map Prod.fst).Nodup) :
    ((regSet st i d).map Prod.fst).Nodup := by
  rw [keys_regSet]
  unfold insertIfAbsent
  by_cases hm : i ∈ st.map Prod.fst
  · simpa [hm]
  · simp [hm, List.nodup_append, h]

lemma WFreg_regSet (st : Registry) (i : String) (d : MessageDescriptor)
    (hwf : WFreg st) (hd : d.id = some i) : WFreg (regSet st i d) := by
  induction st with
  | nil =>
    intro e he
    simp [regSet] at he
    subst he
    exact hd
  | cons e rest ih =>
    obtain ⟨k, v⟩ := e
    have hv : v.id = some k := hwf (k, v) (by simp)
    have hrest : WFreg rest := fun e he => hwf e (List.mem_cons_of_mem _ he)
    by_cases hk : k = i
    · intro e he
      simp [regSet, hk] at he
      rcases he with he | he
      · subst he; exact hd
      · exact hrest e he
    · intro e he
      simp [regSet, hk] at he
      rcases he with he | he
      · subst he; exact hv
      · exact ih hrest e he

lemma emitted_ids (st : Registry) (hwf : WFreg st) :
    (emitted st).map (fun d => d.id.getD "") = st.map Prod.fst := by
  induction st with
  | nil => rfl
  | cons e rest ih =>
    have he : e.2.id = some e.1 := hwf e (by simp)
    have hrest : WFreg rest := fun x hx => hwf x (List.mem_cons_of_mem _ hx)
    have hr := ih hrest
    simp only [emitted, List.map_cons] at hr ⊢
    rw [hr, he]
    rfl

/-- Characterization of a successful storeMessage call: the required fields
were truthy, the new registry is a Map.set of the old, the description was
truthy whenever enforcement was on, and any previously stored entry under
the same id agreed on description and defaultMessage. -/
lemma storeMessage_ok {d : MessageDescriptor} {opts : Opts}
    {st st' : Registry} (h : storeMessage d opts st = .ok st') :
    truthy d.id = true ∧ truthy d.defaultMessage = true ∧
    st' = regSet st (d.id.getD "") d ∧
    (opts.enforceDescriptions = true → truthy d.description = true) ∧
    (∀ ex, regLookup st (d.id.getD "") = some ex →
      d.description = ex.description ∧ d.defaultMessage = ex.defaultMessage) := by
  unfold storeMessage at h
  split at h
  · exact absurd h (by simp)
  next hreq =>
    rw [not_not] at hreq
    refine ⟨hreq.1, hreq.2, ?_⟩
    split at h
    next existing heq =>
      split at h
      · exact absurd h (by simp)
      next hcomp =>
        rw [not_or, not_not, not_not] at hcomp
        split at h
        · exact absurd h (by simp)
        next henf =>
          push_neg at henf
          rw [Except.ok.injEq] at h
          refine ⟨h.symm, henf, ?_⟩
          intro ex' hex'
          rw [heq] at hex'
          cases hex'
          exact hcomp
    next heq =>
      split at h
      · exact absurd h (by simp)
      next henf =>
        push_neg at henf
        rw [Except.ok.injEq] at h
        refine ⟨h.symm, henf, ?_⟩
        intro ex' hex'
        rw [heq] at hex'
        cases hex'

lemma truthy_some_getD {o : Option String} (h : truthy o = true) :
    o = some (o.getD "") := by
  cases o with
  | none => simp [truthy] at h
  | some s => rfl

/-- A successful sequential registration run preserves well-formedness and
leaves the key sequence equal to the fold of insert-if-absent over the ids,
starting from the initial key sequence. -/
lemma runStore_keys (opts : Opts) :
    ∀ (ds : List MessageDescriptor) (st st' : Registry),
      runStore opts ds st = .ok st' → WFreg st →
      WFreg st' ∧ st'.map Prod.fst =
        (ds.map (fun d => d.id.getD "")).foldl insertIfAbsent
          (st.map Prod.fst) := by
  intro ds
  induction ds with
  | nil =>
    intro st st' h hwf
    simp only [runStore, Except.ok.injEq] at h
    subst h
    exact ⟨hwf, rfl⟩
  | cons d ds ih =>
    intro st st' h hwf
    simp only [runStore] at h
    cases hs : storeMessage d opts st with
    | error e =>
      rw [hs] at h
      exact absurd (h : Except.error e = Except.ok st')
        (fun hh => Except.noConfusion hh)
    | ok st1 =>
      rw [hs] at h
      replace h : runStore opts ds st1 = Except.ok st' := h
      obtain ⟨hid, hdm, hst, -, -⟩ := storeMessage_ok hs
      subst hst
      have hwf1 : WFreg (regSet st (d.id.getD "") d) :=
        WFreg_regSet _ _ _ hwf (truthy_some_getD hid)
      obtain ⟨hwf', hkeys⟩ := ih _ _ h hwf1
      refine ⟨hwf', ?_⟩
      rw [hkeys, keys_regSet]
      rfl

/-- C1: the marker matcher's name sets are claimed to be configurable, but
the code ignores the componentNames / functionNames overrides: the visitors
test the constant name lists (jsxMarkerTest, callMarkerTest), not the
configured ones, although the source defines (and never calls) the
getComponentNames / getFunctionNames accessors.  At a concrete input with
componentNames = ["MyMessage"] and functionNames = ["myMsgs"]: the
spec-modelled matchers recognize identifiers importing the configured names,
yet the visitor test rejects them and the JSX visitor extracts nothing,
while the default-named FormattedMessage is still recognized and extracted
despite the override excluding it. -/
theorem claim_c1_marker_names_ignored :
    isMarkupMarker
      { componentNames := some ["MyMessage"], functionNames := some ["myMsgs"] }
      (RefPath.ident (some ("react-intl", "MyMessage"))) = true ∧
    jsxMarkerTest
      { componentNames := some ["MyMessage"], functionNames := some ["myMsgs"] }
      (RefPath.ident (some ("react-intl", "MyMessage"))) = false ∧
    jsxOpeningElement (fun s => .ok s)
      { componentNames := some ["MyMessage"], functionNames := some ["myMsgs"] }
      (RefPath.ident (some ("react-intl", "MyMessage")))
      [(KeyNode.ident "id", ⟨some "greeting", true⟩),
       (KeyNode.ident "defaultMessage", ⟨some "Hello", true⟩)] [] = .ok [] ∧
    isFunctionMarker
      { componentNames := some ["MyMessage"], functionNames := some ["myMsgs"] }
      (RefPath.ident (some ("react-intl", "myMsgs"))) = true ∧
    callMarkerTest
      { componentNames := some ["MyMessage"], functionNames := some ["myMsgs"] }
      (RefPath.ident (some ("react-intl", "myMsgs"))) = false ∧
    isMarkupMarker
      { componentNames := some ["MyMessage"], functionNames := some ["myMsgs"] }
      (RefPath.ident (some ("react-intl", "FormattedMessage"))) = false ∧
    jsxOpeningElement (fun s => .ok s)
      { componentNames := some ["MyMessage"], functionNames := some ["myMsgs"] }
      (RefPath.ident (some ("react-intl", "FormattedMessage")))
      [(KeyNode.ident "id", ⟨some "greeting", true⟩),
       (KeyNode.ident "defaultMessage", ⟨some "Hello", true⟩)] [] =
      .ok [("greeting", ⟨some "greeting", none, some "Hello"⟩)] :=
  ⟨rfl, rfl, rfl, rfl, rfl, rfl, rfl⟩

/-- C2 (counterexample): two descriptors share the id "greeting" and differ
in defaultMessage (one has the empty string, the other "Hello"), yet
registering the second raises the missing-required-field error, not the
duplicate-identifier error the claim requires: the truthiness check on the
required fields runs before the duplicate check. -/
theorem claim_c2_counterexample :
    (⟨some "greeting", none, some ""⟩ : MessageDescriptor).id =
      (⟨some "greeting", none, some "Hello"⟩ : MessageDescriptor).id ∧
    (⟨some "greeting", none, some ""⟩ : MessageDescriptor).defaultMessage ≠
      (⟨some "greeting", none, some "Hello"⟩ : MessageDescriptor).defaultMessage ∧
    storeMessage ⟨some "greeting", none, some ""⟩ {}
      [("greeting", ⟨some "greeting", none, some "Hello"⟩)] =
      .error .missingRequired ∧
    storeMessage ⟨some "greeting", none, some ""⟩ {}
      [("greeting", ⟨some "greeting", none, some "Hello"⟩)] ≠
      .error (.duplicateId "greeting") := by
  refine ⟨rfl, by decide, rfl, ?_⟩
  intro hc
  have h1 : storeMessage ⟨some "greeting", none, some ""⟩ {}
      [("greeting", ⟨some "greeting", none, some "Hello"⟩)] =
      Except.error ExtractionError.missingRequired := rfl
  rw [h1] at hc
  exact ExtractionError.noConfusion (Except.error.inj hc)

/-- C2 (amended): for every pair of descriptors sharing an id where the
description or the defaultMessage differ, PROVIDED the second descriptor
passes the required-field truthiness check (its id and defaultMessage are
present and non-empty), registering the second fails with the
duplicate-identifier error naming the conflicting id; as the error is
raised before any mutation, the registry keeps the first entry unchanged. -/
theorem claim_c2_amended (d existing : MessageDescriptor) (opts : Opts)
    (st : Registry)
    (hid : truthy d.id = true) (hdm : truthy d.defaultMessage = true)
    (hex : regLookup st (d.id.getD "") = some existing)
    (hdiff : d.description ≠ existing.description ∨
      d.defaultMessage ≠ existing.defaultMessage) :
    storeMessage d opts st = .error (.duplicateId (d.id.getD "")) := by
  unfold storeMessage
  rw [if_neg (not_not.mpr ⟨hid, hdm⟩)]
  split
  next e heq =>
    rw [hex] at heq
    cases heq
    exact if_pos hdiff
  next heq =>
    rw [hex] at heq
    exact Option.noConfusion heq

/-- Witness for the amended C2 at a concrete input: the second descriptor
has a truthy defaultMessage that differs from the stored one. -/
theorem claim_c2_amended_witness :
    storeMessage ⟨some "greeting", none, some "Goodbye"⟩ {}
      [("greeting", ⟨some "greeting", none, some "Hello"⟩)] =
      .error (.duplicateId "greeting") :=
  claim_c2_amended _ _ {} _ rfl rfl rfl (Or.inr (by decide))

/-- C3: registering the same descriptor twice is idempotent.  If a store of
`d` into a registry with duplicate-free keys succeeds and yields `st'`, then
storing `d` again succeeds without changing the registry, and `st'` holds
exactly one entry for `d`'s id, which is `d` itself (so the entry after the
second call is identical to the entry after the first, and no error is
raised). -/
theorem claim_c3_idempotent (d : MessageDescriptor) (opts : Opts)
    (st st' : Registry) (hnd : (st.map Prod.fst).Nodup)
    (h : storeMessage d opts st = .ok st') :
    storeMessage d opts st' = .ok st' ∧
    regLookup st' (d.id.getD "") = some d ∧
    keyCount st' (d.id.getD "") = 1 := by
  obtain ⟨hid, hdm, hst, henf, -⟩ := storeMessage_ok h
  subst hst
  refine ⟨?_, regLookup_regSet_self st _ d, keyCount_regSet st _ d hnd⟩
  unfold storeMessage
  rw [if_neg (not_not.mpr ⟨hid, hdm⟩)]
  split
  next e heq =>
    rw [regLookup_regSet_self] at heq
    cases heq
    rw [if_neg (by simp)]
    rw [if_neg (fun hc => hc.2 (henf hc.1))]
    rw [regSet_regSet_self]
  next heq =>
    rw [regLookup_regSet_self] at heq
    exact Option.noConfusion heq

/-- Witness for C3: the same descriptor stored into the one-entry registry
it produced is a no-op and the registry keeps exactly one entry for its
id. -/
theorem claim_c3_witness :
    storeMessage ⟨some "greeting", none, some "Hello"⟩ {}
      [("greeting", ⟨some "greeting", none, some "Hello"⟩)] =
      .ok [("greeting", ⟨some "greeting", none, some "Hello"⟩)] ∧
    regLookup [("greeting", ⟨some "greeting", none, some "Hello"⟩)] "greeting" =
      some ⟨some "greeting", none, some "Hello"⟩ ∧
    keyCount [("greeting", ⟨some "greeting", none, some "Hello"⟩)] "greeting" = 1 :=
  claim_c3_idempotent ⟨some "greeting", none, some "Hello"⟩ {} [] _
    (by simp) rfl

/-- C4: a descriptor in which id or defaultMessage is absent always fails
with the missing-required-field error, for every configuration (in
particular both values of enforceDescriptions) and every registry; the
error is raised before any mutation, so the registry is unchanged. -/
theorem claim_c4_missing_required (d : MessageDescriptor) (opts : Opts)
    (st : Registry) (h : d.id = none ∨ d.defaultMessage = none) :
    storeMessage d opts st = .error .missingRequired := by
  have hc : ¬ (truthy d.id = true ∧ truthy d.defaultMessage = true) := by
    rcases h with h | h <;> rw [h] <;> intro hcc
    · exact absurd hcc.1 (by decide)
    · exact absurd hcc.2 (by decide)
  unfold storeMessage
  rw [if_pos hc]

/-- Witness for C4: a descriptor with no id fails even under
enforceDescriptions and with a description present. -/
theorem claim_c4_witness :
    storeMessage ⟨none, some "a hint", some "Hello"⟩
      { enforceDescriptions := true } [] = .error .missingRequired :=
  claim_c4_missing_required _ _ _ (Or.inl rfl)

/-- C5: with id and defaultMessage truthy, description empty or absent
(falsy), and the id not yet registered, storing fails with the
description-required error exactly when enforceDescriptions is on, and
succeeds (adding the entry) when it is off. -/
theorem claim_c5_enforce_descriptions (d : MessageDescriptor) (opts : Opts)
    (st : Registry)
    (hid : truthy d.id = true) (hdm : truthy d.defaultMessage = true)
    (hdesc : truthy d.description = false)
    (hfresh : regLookup st (d.id.getD "") = none) :
    (opts.enforceDescriptions = true →
      storeMessage d opts st = .error .descriptionRequired) ∧
    (opts.enforceDescriptions = false →
      storeMessage d opts st = .ok (regSet st (d.id.getD "") d)) := by
  constructor
  · intro henf
    unfold storeMessage
    rw [if_neg (not_not.mpr ⟨hid, hdm⟩)]
    split
    next e heq =>
      rw [hfresh] at heq
      exact Option.noConfusion heq
    next heq =>
      rw [if_pos ⟨henf, by rw [hdesc]; exact fun hcc => Bool.noConfusion hcc⟩]
  · intro henf
    unfold storeMessage
    rw [if_neg (not_not.mpr ⟨hid, hdm⟩)]
    split
    next e heq =>
      rw [hfresh] at heq
      exact Option.noConfusion heq
    next heq =>
      rw [if_neg (fun hc => by rw [henf] at hc; exact Bool.noConfusion hc.1)]

/-- Witness for C5 at a concrete input, both modes: with the description
absent, enforcement on rejects and enforcement off stores the entry. -/
theorem claim_c5_witness :
    storeMessage ⟨some "greeting", none, some "Hello"⟩
      { enforceDescriptions := true } [] = .error .descriptionRequired ∧
    storeMessage ⟨some "greeting", none, some "Hello"⟩
      { enforceDescriptions := false } [] =
      .ok [("greeting", ⟨some "greeting", none, some "Hello"⟩)] :=
  ⟨(claim_c5_enforce_descriptions ⟨some "greeting", none, some "Hello"⟩
      { enforceDescriptions := true } [] rfl rfl rfl rfl).1 rfl,
   (claim_c5_enforce_descriptions ⟨some "greeting", none, some "Hello"⟩
      { enforceDescriptions := false } [] rfl rfl rfl rfl).2 rfl⟩

/-- C6: after a successful sequence of registrations starting from the empty
per-unit registry, the emitted descriptor sequence is ordered exactly by the
order in which each distinct id was first successfully registered; an exact
duplicate re-registration leaves its id's position unchanged (insertIfAbsent
keeps the first occurrence). -/
theorem claim_c6_emission_order (opts : Opts) (ds : List MessageDescriptor)
    (st' : Registry) (h : runStore opts ds [] = .ok st') :
    (emitted st').map (fun d => d.id.getD "") =
      firstRegOrder (ds.map (fun d => d.id.getD "")) := by
  obtain ⟨hwf, hkeys⟩ :=
    runStore_keys opts ds [] st' h (fun e he => absurd he (List.not_mem_nil e))
  rw [emitted_ids st' hwf, hkeys]
  rfl

/-- Witness for C6: a run that registers ids "a", "b" and then an exact
duplicate of "a"; the emitted order is ["a", "b"], the first-registration
order. -/
theorem claim_c6_witness :
    (emitted [("a", ⟨some "a", none, some "x"⟩),
              ("b", ⟨some "b", none, some "y"⟩)]).map
        (fun d => d.id.getD "") =
      firstRegOrder
        (([⟨some "a", none, some "x"⟩, ⟨some "b", none, some "y"⟩,
           ⟨some "a", none, some "x"⟩] : List MessageDescriptor).map
          (fun d => d.id.getD "")) :=
  claim_c6_emission_order {}
    [⟨some "a", none, some "x"⟩, ⟨some "b", none, some "y"⟩,
     ⟨some "a", none, some "x"⟩] _ rfl

/-- C7: at Program.exit the emitted descriptor sequence is always attached
to the unit's metadata, and the catalog file is written iff an output
directory is configured (messagesDir truthy) and the sequence is non-empty;
with no output directory or an empty registry no file is written. -/
theorem claim_c7_exit_metadata_and_write (opts : Opts) (st : Registry) :
    (programExit opts st).metadata = emitted st ∧
    ((programExit opts st).writesFile = true ↔
      truthy opts.messagesDir = true ∧ emitted st ≠ []) := by
  refine ⟨rfl, ?_⟩
  simp [programExit, List.length_pos]

/-- Witness for C7 at a concrete input: with an output directory configured
and one stored descriptor, the metadata is the emitted sequence and the
file-write condition holds. -/
theorem claim_c7_witness :
    (programExit { messagesDir := some "i18n" }
        [("a", ⟨some "a", none, some "x"⟩)]).metadata =
      emitted [("a", ⟨some "a", none, some "x"⟩)] ∧
    ((programExit { messagesDir := some "i18n" }
        [("a", ⟨some "a", none, some "x"⟩)]).writesFile = true ↔
      truthy (some "i18n") = true ∧
      emitted [("a", ⟨some "a", none, some "x"⟩)] ≠ []) :=
  claim_c7_exit_metadata_and_write { messagesDir := some "i18n" }
    [("a", ⟨some "a", none, some "x"⟩)]

lemma createMessageDescriptor_singleton (norm : String → Except String String)
    (isJSXSource : Bool) (p : KeyNode × ValueNode) :
    createMessageDescriptor norm [p] isJSXSource =
      descriptorStep norm isJSXSource {} p := by
  unfold createMessageDescriptor
  cases h : descriptorStep norm isJSXSource {} p <;>
    simp [List.foldlM, h]

/-- C8: a defaultMessage value goes through the message-syntax validator
`norm`: on success the validator's normalized output (not the raw value) is
stored as defaultMessage; on failure in a JSX usage whose value node is a
literal containing a double-backslash sequence, the specific
wrap-in-expression-container error is raised; in every other failure case
the generic parse error carrying the underlying failure is raised. -/
theorem claim_c8_default_message_validation
    (norm : String → Except String String) (v n e : String)
    (isLit jsx : Bool) :
    (norm v = .ok n →
      createMessageDescriptor norm
        [(KeyNode.ident "defaultMessage", ⟨some v, isLit⟩)] jsx =
        .ok { id := none, description := none, defaultMessage := some n }) ∧
    (norm v = .error e → jsx = true → isLit = true →
      hasDoubleBackslash v = true →
      createMessageDescriptor norm
        [(KeyNode.ident "defaultMessage", ⟨some v, isLit⟩)] jsx =
        .error .jsxEscapeParseFailure) ∧
    (norm v = .error e →
      ¬ (jsx = true ∧ isLit = true ∧ hasDoubleBackslash v = true) →
      createMessageDescriptor norm
        [(KeyNode.ident "defaultMessage", ⟨some v, isLit⟩)] jsx =
        .error (.parseFailure e)) := by
  refine ⟨?_, ?_, ?_⟩
  · intro hnorm
    rw [createMessageDescriptor_singleton]
    simp [descriptorStep, getMessageDescriptorKey, getMessageDescriptorValue,
      DESCRIPTOR_PROPS, hnorm, setProp]
  · intro hnorm hj hl hb
    subst hj
    subst hl
    rw [createMessageDescriptor_singleton]
    simp [descriptorStep, getMessageDescriptorKey, getMessageDescriptorValue,
      DESCRIPTOR_PROPS, hnorm, hb]
  · intro hnorm hc
    rw [createMessageDescriptor_singleton]
    simp only [descriptorStep, getMessageDescriptorKey,
      getMessageDescriptorValue, hnorm]
    rw [if_pos trivial, if_neg hc]
    simp [DESCRIPTOR_PROPS]

/-- Witness for C8 with a concrete validator that normalizes by appending a
question mark and rejects strings containing a double backslash: success
stores the normalized output, and the same failing literal raises the
JSX-escape error when it is a literal and the generic parse error when it is
not. -/
theorem claim_c8_witness :
    createMessageDescriptor
      (fun s => if hasDoubleBackslash s then .error "escapes" else .ok (s ++ "?"))
      [(KeyNode.ident "defaultMessage", ⟨some "Hello", true⟩)] true =
      .ok { id := none, description := none, defaultMessage := some "Hello?" } ∧
    createMessageDescriptor
      (fun s => if hasDoubleBackslash s then .error "escapes" else .ok (s ++ "?"))
      [(KeyNode.ident "defaultMessage", ⟨some "a\\\\b", true⟩)] true =
      .error .jsxEscapeParseFailure ∧
    createMessageDescriptor
      (fun s => if hasDoubleBackslash s then .error "escapes" else .ok (s ++ "?"))
      [(KeyNode.ident "defaultMessage", ⟨some "a\\\\b", false⟩)] true =
      .error (.parseFailure "escapes") :=
  ⟨(claim_c8_default_message_validation
      (fun s => if hasDoubleBackslash s then .error "escapes" else .ok (s ++ "?"))
      "Hello" "Hello?" "escapes" true true).1 rfl,
   (claim_c8_default_message_validation
      (fun s => if hasDoubleBackslash s then .error "escapes" else .ok (s ++ "?"))
      "a\\\\b" "" "escapes" true true).2.1 rfl rfl rfl rfl,
   (claim_c8_default_message_validation
      (fun s => if hasDoubleBackslash s then .error "escapes" else .ok (s ++ "?"))
      "a\\\\b" "" "escapes" false true).2.2 rfl (by simp)⟩

/-- C9: a recognized markup marker usage from which no truthy defaultMessage
is resolved produces no registry entry and no error (it is silently
skipped, e.g. a spread-only usage with no attributes); when a defaultMessage
is resolved but the required id is not, registration fails with the
missing-required-field error. -/
theorem claim_c9_jsx_skip (norm : String → Except String String) (opts : Opts)
    (name : RefPath) (attrs : List (KeyNode × ValueNode)) (st : Registry)
    (d : MessageDescriptor)
    (hplural : referencesImport name (getModuleSourceNames opts)
      ["FormattedPlural"] = false)
    (hmarker : referencesImport name (getModuleSourceNames opts)
      COMPONENT_NAMES = true)
    (hd : createMessageDescriptor norm attrs true = .ok d) :
    (truthy d.defaultMessage = false →
      jsxOpeningElement norm opts name attrs st = .ok st) ∧
    (truthy d.defaultMessage = true → truthy d.id = false →
      jsxOpeningElement norm opts name attrs st = .error .missingRequired) := by
  constructor
  · intro hdm
    unfold jsxOpeningElement
    rw [if_neg (by rw [hplural]; exact fun hcc => Bool.noConfusion hcc),
      if_pos hmarker]
    split
    next err heq =>
      rw [hd] at heq
      exact Except.noConfusion heq
    next desc heq =>
      rw [hd] at heq
      cases heq
      rw [if_neg (by rw [hdm]; exact fun hcc => Bool.noConfusion hcc)]
  · intro hdm hid
    unfold jsxOpeningElement
    rw [if_neg (by rw [hplural]; exact fun hcc => Bool.noConfusion hcc),
      if_pos hmarker]
    split
    next err heq =>
      rw [hd] at heq
      exact Except.noConfusion heq
    next desc heq =>
      rw [hd] at heq
      cases heq
      rw [if_pos hdm]
      unfold storeMessage
      rw [if_pos (fun hcc => by rw [hid] at hcc; exact Bool.noConfusion hcc.1)]

/-- Witness for C9: a FormattedMessage usage with no attributes (the
spread-only case) leaves the registry untouched with no error, and one that
declares only a defaultMessage fails with the missing-required error. -/
theorem claim_c9_witness :
    jsxOpeningElement (fun s => .ok s) {}
      (RefPath.ident (some ("react-intl", "FormattedMessage"))) [] [] =
      .ok [] ∧
    jsxOpeningElement (fun s => .ok s) {}
      (RefPath.ident (some ("react-intl", "FormattedMessage")))
      [(KeyNode.ident "defaultMessage", ⟨some "Hello", true⟩)] [] =
      .error .missingRequired :=
  ⟨(claim_c9_jsx_skip (fun s => .ok s) {}
      (RefPath.ident (some ("react-intl", "FormattedMessage"))) [] []
      {} rfl rfl rfl).1 rfl,
   (claim_c9_jsx_skip (fun s => .ok s) {}
      (RefPath.ident (some ("react-intl", "FormattedMessage")))
      [(KeyNode.ident "defaultMessage", ⟨some "Hello", true⟩)] []
      ⟨none, none, some "Hello"⟩ rfl rfl rfl).2 rfl rfl⟩

/-- C10: storeMessage treats an empty-string id or defaultMessage exactly
like an absent one, because the presence check is on truthiness: a
descriptor whose id or defaultMessage is the empty string fails with the
missing-required-field error even though both fields are present as
strings. -/
theorem claim_c10_empty_string_required (d : MessageDescriptor) (opts : Opts)
    (st : Registry) (h : d.id = some "" ∨ d.defaultMessage = some "") :
    storeMessage d opts st = .error .missingRequired := by
  have hc : ¬ (truthy d.id = true ∧ truthy d.defaultMessage = true) := by
    rcases h with h | h <;> rw [h] <;> intro hcc
    · exact absurd hcc.1 (by decide)
    · exact absurd hcc.2 (by decide)
  unfold storeMessage
  rw [if_pos hc]

/-- Witness for C10: both fields present as strings, the id empty. -/
theorem claim_c10_witness :
    storeMessage ⟨some "", some "a hint", some "Hello"⟩ {} [] =
      .error .missingRequired :=
  claim_c10_empty_string_required ⟨some "", some "a hint", some "Hello"⟩ {} []
    (Or.inl rfl)

end ReactIntlExtract
